import Mathlib

/-!
Verification of the client-side data synchronization layer of the
milk-ATM monitoring dashboard (dairy-sight-frontend).

The TypeScript components are shallowly embedded: each React component's
state is a Lean structure, each event handler or fetch routine is a pure
function from a fetch outcome and a pre-state to a post-state (async
functions with one `await` are split into a `...Start` phase, run before
the suspension point, and a `...Finish` phase, run when the promise
settles), and the event-loop/timer behaviour relevant to polling teardown
is a small labelled step system.  JavaScript numbers are modelled as ℚ
(no float rounding is exercised by any property here) and `JSON.stringify`
as a canonical injective serialization: the code only ever compares
serializations for equality, so the exact character format is irrelevant.
-/

namespace DairySight

/-- A device record as declared in `src/lib/types.ts` and consumed by the
pages: `{ id, name, status, isTampered, lastUpdated, capacity,
temperature }`.  `status` is the string `"online"` or `"offline"`;
numeric fields are modelled as ℚ. -/
structure Device where
  id : String
  name : String
  status : String
  isTampered : Bool
  lastUpdated : String
  capacity : ℚ
  temperature : ℚ
deriving DecidableEq, Repr

/-- Stands for `JSON.stringify` on one device.  The client only compares
serializations for equality (the silent-refresh diff), so any injective
rendering is a faithful model of the role `JSON.stringify` plays. -/
def serializeDevice (d : Device) : String :=
  d.id ++ "|" ++ d.name ++ "|" ++ d.status ++ "|" ++ toString d.isTampered
    ++ "|" ++ d.lastUpdated ++ "|" ++ toString d.capacity ++ "|" ++ toString d.temperature

/-- Stands for `JSON.stringify` on a device array (the silent-poll payload). -/
def serializeDevices (ds : List Device) : String :=
  "[" ++ String.intercalate "," (ds.map serializeDevice) ++ "]"

/-- Feedback/notification banner payload: `{ type: "success" | "error";
message: string }` as used by `AtmDevices` and the price page. -/
inductive FeedbackType where
  | success
  | error
deriving DecidableEq, Repr

structure Feedback where
  type : FeedbackType
  message : String
deriving DecidableEq, Repr

/-- The component state of `AtmDevices` (src/unnamed/part_003) that the
fetch routines touch: the committed device list (`deviceList` via
`useState`), the loading flag, the notification banner, and the
module-instance ref `previousDataRef.current` holding the last committed
serialization.  Pure UI fields (`selectedDevice`, `showAddModal`,
`newDevice`) are never read or written by the fetch paths and are omitted. -/
structure AtmState where
  deviceList : List Device
  loading : Bool
  notification : Option Feedback
  previousData : String
deriving DecidableEq, Repr

/-- Outcome of one silent background poll (`fetch` + `res.json()`):
the response was 2xx and parsed to `data`, or the response was non-2xx
(`!res.ok`, early `return`), or the fetch/parse threw (caught and
swallowed). -/
inductive SilentOutcome where
  | ok (data : List Device)
  | notOk
  | threw
deriving DecidableEq, Repr

/-- `fetchDevicesSilently` from `AtmDevices` (src/unnamed/part_003 lines
55–70; textually the same logic appears in
`DeviceStatusList`/`DeviceDetailModal`): on a 2xx response it serializes
the payload, compares against `previousDataRef.current`, and only when
different stores the new serialization and commits the payload with
`setDeviceList`; non-2xx returns early and exceptions are swallowed.
The second component of the result records the `setDeviceList` calls
issued (the re-render signals), in order. -/
def fetchDevicesSilently (o : SilentOutcome) (st : AtmState) :
    AtmState × List (List Device) :=
  match o with
  | .ok data =>
    let serialized := serializeDevices data
    if serialized ≠ st.previousData then
      ({ st with previousData := serialized, deviceList := data }, [data])
    else
      (st, [])
  | .notOk => (st, [])
  | .threw => (st, [])

/-- JavaScript `a || b` on strings as used for error-message fallbacks
(`err.message || "Unknown error"`, `data.message || "..."`): an absent or
empty (falsy) string selects the fallback. -/
def jsOrString (s : Option String) (dflt : String) : String :=
  match s with
  | some t => if t = "" then dflt else t
  | none => dflt

/-- The slice of the `Dashboard` component state
(src/components/pages/dashboard.tsx, src/unnamed/part_002) that
`fetchDevices` reads or writes: `devices`, `loadingDevices`,
`deviceError`.  The vendor and transaction states are independent copies
of the same pattern and are not touched by `fetchDevices`. -/
structure DashState where
  devices : List Device
  loadingDevices : Bool
  deviceError : String
deriving DecidableEq, Repr

/-- Outcome of the dashboard's `fetch` + `res.json()`: a 2xx response
parsed to `data`, a non-2xx response (the code throws
`Error("Failed to fetch devices")`, caught below), or a thrown
fetch/parse error carrying `err.message`. -/
inductive DashOutcome where
  | ok (data : List Device)
  | notOk
  | threw (msg : String)
deriving DecidableEq, Repr

/-- `fetchDevices` (dashboard.tsx lines 62–75), the part run before the
`await`: `setLoadingDevices(true); setDeviceError("")`. -/
def fetchDevicesStart (st : DashState) : DashState :=
  { st with loadingDevices := true, deviceError := "" }

/-- `fetchDevices`, the part run when the request settles: on a 2xx
response `setDevices(data)`; on a non-2xx response the thrown
`Error("Failed to fetch devices")` is caught and
`setDeviceError(err.message || "Unknown error")` runs; a thrown error is
handled the same way with its own message; `finally` clears the loading
flag in every case. -/
def fetchDevicesFinish (o : DashOutcome) (st : DashState) : DashState :=
  let st' :=
    match o with
    | .ok data => { st with devices := data }
    | .notOk => { st with deviceError := jsOrString (some "Failed to fetch devices") "Unknown error" }
    | .threw msg => { st with deviceError := jsOrString (some msg) "Unknown error" }
  { st' with loadingDevices := false }

/-- `onlineDevices` on the dashboard:
`devices.filter((d) => d.status === "online").length`. -/
def onlineCount (devices : List Device) : Nat :=
  (devices.filter (fun d => d.status == "online")).length

/-- The `change` string of the Active Devices `StatsCard`
(src/unnamed/part_002 line 152):
`loadingDevices ? "" : clamp-free Math.round((onlineDevices/totalDevices)*100) + "% uptime"`.
JavaScript semantics when `totalDevices = 0`: `0/0` is `NaN`,
`Math.round(NaN)` is `NaN`, and the template literal renders it as the
string `"NaN"`.  `Math.round` on a finite number is `⌊x + 1/2⌋`, which is
Mathlib's `round`. -/
def uptimeChange (loadingDevices : Bool) (devices : List Device) : String :=
  if loadingDevices then ""
  else
    let online := onlineCount devices
    let total := devices.length
    if total = 0 then "NaN% uptime"
    else toString (round ((online : ℚ) / (total : ℚ) * 100)) ++ "% uptime"

/-- `capacityPercent` as computed in dashboard.tsx lines 146–147 (and
identically in `DeviceStatusList` and `DeviceDetailModal`):
`Math.min((capacityValue / 100) * 100, 100)`.  There is no lower clamp in
the source. -/
def capacityPercent (capacity : ℚ) : ℚ :=
  min (capacity / 100 * 100) 100

/-- The clamp the specification describes: `clamp(x, lo, hi)`.
Modelled from the spec for comparison with the source's
`capacityPercent`; it is not in the source. -/
def clampSpec (x lo hi : ℚ) : ℚ :=
  min (max x lo) hi

/-- `capacityBarColor` (dashboard.tsx lines 149–154, identically in the
modals): green when the percentage is ≥ 50, yellow when ≥ 25, red
otherwise. -/
def capacityBarColor (capacityPct : ℚ) : String :=
  if capacityPct ≥ 50 then "bg-green-500"
  else if capacityPct ≥ 25 then "bg-yellow-400"
  else "bg-red-500"

/-- The part of the event-loop runtime relevant to polling teardown in
`AtmDevices` (src/unnamed/part_003 lines 80–83): whether the component is
mounted and whether the interval registered by the polling effect is
still active.  The effect's cleanup (run by React at unmount) is
`clearInterval`, so unmounting deactivates the timer.  React discards a
`setState` issued against an unmounted component instance — with the
instance gone there is no view state left to write — so a fetch callback
commits only while `mounted` holds. -/
structure PollSystem where
  mounted : Bool
  timerActive : Bool
  view : AtmState
deriving DecidableEq, Repr

/-- Scheduler events interleaved on the event loop: an interval tick
whose issued request completes with outcome `o`; a request issued at some
earlier time completing late with outcome `o` (in-flight requests are not
aborted by the cleanup); and the view unmounting, which runs the effect
cleanup `clearInterval`. -/
inductive PollEvent where
  | tick (o : SilentOutcome)
  | lateResolve (o : SilentOutcome)
  | unmount
deriving DecidableEq, Repr

/-- A completed silent request runs `fetchDevicesSilently`'s continuation;
its state writes land only on a mounted instance. -/
def commitSilent (o : SilentOutcome) (sys : PollSystem) : PollSystem :=
  if sys.mounted then { sys with view := (fetchDevicesSilently o sys.view).1 }
  else sys

/-- One scheduler step.  A tick fires only while the interval is active
(`clearInterval` removes it); a late resolution runs unconditionally but
its commit is gated on `mounted`; unmount clears the flag and runs the
cleanup, deactivating the timer. -/
def pollStep (e : PollEvent) (sys : PollSystem) : PollSystem :=
  match e with
  | .tick o => if sys.timerActive then commitSilent o sys else sys
  | .lateResolve o => commitSilent o sys
  | .unmount => { sys with mounted := false, timerActive := false }

/-- Run a sequence of scheduler events. -/
def pollRun (es : List PollEvent) (sys : PollSystem) : PollSystem :=
  es.foldl (fun s e => pollStep e s) sys

/-- JavaScript `parseInt(s)` in its decimal form (leading whitespace
skipped, optional sign, longest leading digit run; `NaN`, i.e. `none`,
when no digits follow; radix-prefix forms such as `"0x"` are not
exercised by numeric form inputs and are not modelled). -/
def parseIntJs (s : String) : Option Int :=
  let cs := s.toList.dropWhile (fun c => c.isWhitespace)
  let signedRest : Int × List Char :=
    match cs with
    | '-' :: r => (-1, r)
    | '+' :: r => (1, r)
    | r => (1, r)
  let ds := signedRest.2.takeWhile (fun c => c.isDigit)
  if ds.isEmpty then none
  else some (signedRest.1 * (ds.foldl (fun a c => a * 10 + (c.toNat - 48)) 0 : Nat))

/-- The slice of `AccountPage` state (src/components/pages/account.tsx)
that `handleWithdraw` reads or writes: the withdrawal-form visibility,
the amount input, and the inline error string. -/
structure AccountState where
  isWithdrawing : Bool
  withdrawAmount : String
  error : String
deriving DecidableEq, Repr

/-- The insufficient-balance message of `handleWithdraw`; the source
renders the balance with `toLocaleString()` (thousand separators),
modelled as plain `toString`. -/
def insufficientBalanceMsg (balance : ℚ) : String :=
  "Insufficient balance. Your current balance is KES " ++ toString balance

/-- `handleWithdraw` (account.tsx lines 27–44, repeated verbatim at
240–257): parse the input with `parseInt`; `NaN` or ≤ 0 rejects with a
fixed message; an amount above the balance rejects with a message showing
the balance; otherwise `onWithdraw(amount)` is called and the form is
closed and cleared.  The second component of the result is the amount
forwarded to `onWithdraw`, if any. -/
def handleWithdraw (balance : ℚ) (st : AccountState) : AccountState × Option Int :=
  match parseIntJs st.withdrawAmount with
  | none => ({ st with error := "Please enter a valid amount greater than 0" }, none)
  | some amount =>
    if amount ≤ 0 then
      ({ st with error := "Please enter a valid amount greater than 0" }, none)
    else if (amount : ℚ) > balance then
      ({ st with error := insufficientBalanceMsg balance }, none)
    else
      (⟨false, "", ""⟩, some amount)

/-- The slice of the backend-connected `Price` component state
(src/components/pages/price.tsx, second version) that `handleSetPrice`
touches: the committed pricing (`pricing.pricePerLitre`), the price
input, the edit-mode flag, the loading flag and the feedback banner. -/
structure PriceState where
  pricing : ℚ
  newPrice : String
  isEditing : Bool
  loading : Bool
  feedback : Option Feedback
deriving DecidableEq, Repr

/-- `handleSetPrice` (price.tsx lines 174–187), the part run before the
`await fetch(...)`: parse the input with `parseInt`; `NaN` or ≤ 0 sets an
error feedback and returns — no POST is issued and nothing else changes;
otherwise `setLoading(true)` runs and the POST is issued with the parsed
price (the second component of the result). -/
def handleSetPriceStart (st : PriceState) : PriceState × Option Int :=
  match parseIntJs st.newPrice with
  | none =>
    ({ st with feedback := some ⟨.error, "Please enter a valid price greater than 0"⟩ }, none)
  | some price =>
    if price ≤ 0 then
      ({ st with feedback := some ⟨.error, "Please enter a valid price greater than 0"⟩ }, none)
    else
      ({ st with loading := true }, some price)

/-- Outcome of the pricing POST: a response with its `res.ok` flag and a
parsed body `{ success, message, error }` — plus any price the body might
echo, which the source never reads — or a thrown fetch/parse error. -/
inductive PostOutcome where
  | resp (ok : Bool) (success : Bool) (message : Option String)
      (err : Option String) (echoedPrice : Option ℚ)
  | threw
deriving DecidableEq, Repr

/-- `handleSetPrice` (price.tsx lines 189–203), the part run when the
POST settles: only when `res.ok && data.success` does the client commit
`setPricing({ pricePerLitre: price })` — the locally parsed price, not a
body value — show a success banner and leave edit mode; otherwise it
shows `data.error || "Failed to update price"`; a thrown error shows the
fixed failure banner; `finally` clears the loading flag in every case. -/
def handleSetPriceFinish (price : Int) (o : PostOutcome) (st : PriceState) : PriceState :=
  let st' :=
    match o with
    | .resp ok success message err _ =>
      if ok && success then
        { st with pricing := (price : ℚ),
                  feedback := some ⟨.success, jsOrString message "Price updated successfully"⟩,
                  isEditing := false }
      else
        { st with feedback := some ⟨.error, jsOrString err "Failed to update price"⟩ }
    | .threw => { st with feedback := some ⟨.error, "Failed to update price"⟩ }
  { st' with loading := false }

end DairySight

namespace DairySight

/-- Once a system is unmounted, no event changes the view state, and it
stays unmounted. -/
theorem pollStep_unmounted (e : PollEvent) (s : PollSystem) (h : s.mounted = false) :
    (pollStep e s).view = s.view ∧ (pollStep e s).mounted = false := by
  cases e <;> simp [pollStep, commitSilent, h]

/-- Runs from an unmounted system never change the view state. -/
theorem pollRun_unmounted (es : List PollEvent) :
    ∀ s : PollSystem, s.mounted = false →
      (pollRun es s).view = s.view ∧ (pollRun es s).mounted = false := by
  induction es with
  | nil => intro s h; exact ⟨rfl, h⟩
  | cons e es ih =>
    intro s h
    have hstep := pollStep_unmounted e s h
    have := ih (pollStep e s) hstep.2
    exact ⟨by rw [pollRun, List.foldl_cons, ← pollRun, this.1, hstep.1], this.2⟩

end DairySight

/-- C4: polling teardown — after the unmount cleanup runs
(`clearInterval`), no subsequent scheduler events change the view's
state: ticks no longer fire and a request issued before teardown that
resolves afterwards never commits, so the view state observed through any
later event sequence is exactly the state at unmount. -/
theorem C4_polling_teardown (sys : DairySight.PollSystem)
    (es : List DairySight.PollEvent) :
    (DairySight.pollRun es (DairySight.pollStep .unmount sys)).view = sys.view := by
  have h := DairySight.pollRun_unmounted es (DairySight.pollStep .unmount sys) rfl
  rw [h.1]
  rfl

/-- C8: withdrawal validation tri-case — a non-numeric or non-positive
parsed amount is rejected locally with a fixed message and nothing is
forwarded; an amount above the balance is rejected locally with a message
showing the current balance and nothing is forwarded; an amount in
(0, balance] clears and closes the form and forwards exactly that amount
to `onWithdraw`. -/
theorem C8_withdraw_validation (b : ℚ) (st : DairySight.AccountState) (a : Int) :
    (DairySight.parseIntJs st.withdrawAmount = none →
      DairySight.handleWithdraw b st =
        ({ st with error := "Please enter a valid amount greater than 0" }, none)) ∧
    (DairySight.parseIntJs st.withdrawAmount = some a → a ≤ 0 →
      DairySight.handleWithdraw b st =
        ({ st with error := "Please enter a valid amount greater than 0" }, none)) ∧
    (DairySight.parseIntJs st.withdrawAmount = some a → 0 < a → b < (a : ℚ) →
      DairySight.handleWithdraw b st =
        ({ st with error := DairySight.insufficientBalanceMsg b }, none)) ∧
    (DairySight.parseIntJs st.withdrawAmount = some a → 0 < a → (a : ℚ) ≤ b →
      DairySight.handleWithdraw b st = (⟨false, "", ""⟩, some a)) := by
  refine ⟨fun h => ?_, fun h hle => ?_, fun h hpos hgt => ?_, fun h hpos hle => ?_⟩
  · simp [DairySight.handleWithdraw, h]
  · simp [DairySight.handleWithdraw, h, hle]
  · simp [DairySight.handleWithdraw, h, not_le.2 hpos, hgt]
  · simp [DairySight.handleWithdraw, h, not_le.2 hpos, not_lt.2 hle]

/-- Witness for C8 at balance 100: input "abc" parses to NaN and is
rejected; "0" is rejected as non-positive; "500" exceeds the balance and
the message shows the balance; "50" is accepted and forwarded. -/
theorem C8_withdraw_validation_witness :
    DairySight.handleWithdraw 100 ⟨true, "abc", ""⟩ =
      (⟨true, "abc", "Please enter a valid amount greater than 0"⟩, none) ∧
    DairySight.handleWithdraw 100 ⟨true, "0", ""⟩ =
      (⟨true, "0", "Please enter a valid amount greater than 0"⟩, none) ∧
    DairySight.handleWithdraw 100 ⟨true, "500", ""⟩ =
      (⟨true, "500", DairySight.insufficientBalanceMsg 100⟩, none) ∧
    DairySight.handleWithdraw 100 ⟨true, "50", ""⟩ = (⟨false, "", ""⟩, some 50) := by
  refine ⟨(C8_withdraw_validation 100 ⟨true, "abc", ""⟩ 0).1 (by decide),
          (C8_withdraw_validation 100 ⟨true, "0", ""⟩ 0).2.1 (by decide) (by decide),
          (C8_withdraw_validation 100 ⟨true, "500", ""⟩ 500).2.2.1 (by decide) (by decide)
            (by norm_num),
          (C8_withdraw_validation 100 ⟨true, "50", ""⟩ 50).2.2.2 (by decide) (by decide)
            (by norm_num)⟩

/-- C9: price-update validation is local and blocks the POST — an input
parsing to NaN or to a value ≤ 0 sets an error feedback and returns with
no POST issued and the committed pricing (and everything else) unchanged;
only an input parsing to a value > 0 reaches the network call, which is
issued with that value. -/
theorem C9_price_validation_blocks_post (st : DairySight.PriceState) (price : Int) :
    (DairySight.parseIntJs st.newPrice = none →
      DairySight.handleSetPriceStart st =
        ({ st with feedback := some ⟨.error, "Please enter a valid price greater than 0"⟩ },
          none)) ∧
    (DairySight.parseIntJs st.newPrice = some price → price ≤ 0 →
      DairySight.handleSetPriceStart st =
        ({ st with feedback := some ⟨.error, "Please enter a valid price greater than 0"⟩ },
          none)) ∧
    (DairySight.parseIntJs st.newPrice = some price → 0 < price →
      DairySight.handleSetPriceStart st = ({ st with loading := true }, some price)) := by
  refine ⟨fun h => ?_, fun h hle => ?_, fun h hpos => ?_⟩
  · simp [DairySight.handleSetPriceStart, h]
  · simp [DairySight.handleSetPriceStart, h, hle]
  · simp [DairySight.handleSetPriceStart, h, not_le.2 hpos]

/-- Witness for C9 at the spec's end-to-end input `"-5"`: the parsed
value −5 is ≤ 0, so the handler sets the error feedback, issues no POST,
and leaves the committed pricing (here 250) unchanged. -/
theorem C9_price_validation_blocks_post_witness :
    DairySight.handleSetPriceStart ⟨250, "-5", true, false, none⟩ =
      (⟨250, "-5", true, false,
        some ⟨.error, "Please enter a valid price greater than 0"⟩⟩, none) :=
  (C9_price_validation_blocks_post ⟨250, "-5", true, false, none⟩ (-5)).2.1
    (by decide) (by decide)

/-- C10: the pricing POST counts as successful only when the response is
ok AND the body's `success` field is truthy; then the committed pricing
becomes the locally parsed price — whatever price the body may echo — the
banner is a success message and edit mode closes.  An ok response without
a truthy `success`, like a non-ok response, reports an error and leaves
the committed pricing unchanged. -/
theorem C10_price_post_success_gate (p : Int) (m e : Option String)
    (ech : Option ℚ) (st : DairySight.PriceState) :
    (DairySight.handleSetPriceFinish p (.resp true true m e ech) st).pricing = (p : ℚ) ∧
    (DairySight.handleSetPriceFinish p (.resp true true m e ech) st).isEditing = false ∧
    (DairySight.handleSetPriceFinish p (.resp true true m e ech) st).feedback =
      some ⟨.success, DairySight.jsOrString m "Price updated successfully"⟩ ∧
    (DairySight.handleSetPriceFinish p (.resp true false m e ech) st).pricing = st.pricing ∧
    (DairySight.handleSetPriceFinish p (.resp true false m e ech) st).feedback =
      some ⟨.error, DairySight.jsOrString e "Failed to update price"⟩ ∧
    (DairySight.handleSetPriceFinish p (.resp false true m e ech) st).pricing = st.pricing ∧
    (DairySight.handleSetPriceFinish p (.resp false true m e ech) st).feedback =
      some ⟨.error, DairySight.jsOrString e "Failed to update price"⟩ := by
  refine ⟨rfl, rfl, rfl, rfl, rfl, rfl, rfl⟩

/-- C1: silent background refresh commits by serialized-payload diff —
a fetched payload whose serialization equals the stored previous
serialization causes no state change and no update signal; a payload whose
serialization differs causes exactly one commit, storing the new
serialization and the new list. -/
theorem C1_silent_refresh_diff (st : DairySight.AtmState) (data : List DairySight.Device) :
    (DairySight.serializeDevices data = st.previousData →
      DairySight.fetchDevicesSilently (.ok data) st = (st, [])) ∧
    (DairySight.serializeDevices data ≠ st.previousData →
      DairySight.fetchDevicesSilently (.ok data) st =
        ({ st with previousData := DairySight.serializeDevices data,
                   deviceList := data }, [data])) := by
  constructor
  · intro h
    simp [DairySight.fetchDevicesSilently, h]
  · intro h
    simp [DairySight.fetchDevicesSilently, h]

/-- Witness for C1 at concrete inputs: a state already holding the
serialization of `[d]` is left untouched, and a state holding a different
serialization is updated exactly once. -/
theorem C1_silent_refresh_diff_witness :
    (DairySight.fetchDevicesSilently (.ok [⟨"D1", "Atm 1", "online", false, "t0", 80, 4⟩])
        ⟨[⟨"D1", "Atm 1", "online", false, "t0", 80, 4⟩], false, none,
          DairySight.serializeDevices [⟨"D1", "Atm 1", "online", false, "t0", 80, 4⟩]⟩ =
      (⟨[⟨"D1", "Atm 1", "online", false, "t0", 80, 4⟩], false, none,
          DairySight.serializeDevices [⟨"D1", "Atm 1", "online", false, "t0", 80, 4⟩]⟩, [])) ∧
    (DairySight.fetchDevicesSilently (.ok [⟨"D1", "Atm 1", "online", false, "t0", 80, 4⟩])
        ⟨[], false, none, ""⟩ =
      (⟨[⟨"D1", "Atm 1", "online", false, "t0", 80, 4⟩], false, none,
          DairySight.serializeDevices [⟨"D1", "Atm 1", "online", false, "t0", 80, 4⟩]⟩,
        [[⟨"D1", "Atm 1", "online", false, "t0", 80, 4⟩]])) := by
  constructor
  · exact (C1_silent_refresh_diff _ _).1 rfl
  · exact (C1_silent_refresh_diff _ _).2 (by decide)

/-- C2: a failing silent poll (non-2xx response, or a thrown fetch/parse
error) returns with the component state — device list, loading flag,
previous-payload serialization, notification banner — entirely unchanged
and issues no update. -/
theorem C2_silent_fetch_error_atomicity (st : DairySight.AtmState) :
    DairySight.fetchDevicesSilently .notOk st = (st, []) ∧
    DairySight.fetchDevicesSilently .threw st = (st, []) := by
  constructor <;> rfl

/-- C3: the dashboard's foreground `fetchDevices` sets the loading flag
before the request and clears it when the request settles, whatever the
outcome; a 2xx response replaces the device list and leaves the error
string cleared; a non-2xx response or a thrown error sets a non-empty
error message and leaves the previously held device list untouched. -/
theorem C3_foreground_fetch_contract (st : DairySight.DashState)
    (data : List DairySight.Device) (msg : String) :
    (DairySight.fetchDevicesStart st).loadingDevices = true ∧
    (DairySight.fetchDevicesStart st).deviceError = "" ∧
    (DairySight.fetchDevicesStart st).devices = st.devices ∧
    DairySight.fetchDevicesFinish (.ok data) (DairySight.fetchDevicesStart st) =
      ⟨data, false, ""⟩ ∧
    DairySight.fetchDevicesFinish .notOk (DairySight.fetchDevicesStart st) =
      ⟨st.devices, false, "Failed to fetch devices"⟩ ∧
    (DairySight.fetchDevicesFinish (.threw msg) (DairySight.fetchDevicesStart st)).devices
      = st.devices ∧
    (DairySight.fetchDevicesFinish (.threw msg) (DairySight.fetchDevicesStart st)).loadingDevices
      = false ∧
    (DairySight.fetchDevicesFinish (.threw msg) (DairySight.fetchDevicesStart st)).deviceError
      ≠ "" := by
  refine ⟨rfl, rfl, rfl, rfl, by simp [DairySight.fetchDevicesFinish,
    DairySight.fetchDevicesStart, DairySight.jsOrString], rfl, rfl, ?_⟩
  by_cases h : msg = "" <;>
    simp [DairySight.fetchDevicesFinish, DairySight.fetchDevicesStart,
      DairySight.jsOrString, h]

/-- C5: with loading finished and an empty device list, the Active
Devices card's uptime string is `"NaN% uptime"` — the source computes
`Math.round((0 / 0) * 100)` with no divide-by-zero guard, so no neutral
placeholder is rendered. -/
theorem C5_uptime_nan_at_zero_devices :
    DairySight.uptimeChange false [] = "NaN% uptime" := rfl

/-- C6 counterexample: at raw capacity −10 the source's `capacityPercent`
returns −10, which is negative and differs from the claimed
`clamp(capacity / 100 * 100, 0, 100) = 0` — the source has no lower
clamp. -/
theorem C6_capacity_clamp_counterexample :
    DairySight.capacityPercent (-10) = -10 ∧
    DairySight.clampSpec ((-10 : ℚ) / 100 * 100) 0 100 = 0 ∧
    DairySight.capacityPercent (-10) < 0 := by
  refine ⟨?_, ?_, ?_⟩ <;>
    norm_num [DairySight.capacityPercent, DairySight.clampSpec,
      min_def, max_def]

/-- C6 amended: `capacityPercent` is clamped above at 100 and is
monotonically non-decreasing in the raw capacity, and it agrees with
`clamp(capacity / 100 * 100, 0, 100)` whenever the raw capacity is
non-negative; a negative raw capacity passes through un-clamped. -/
theorem C6_capacity_percent_amended (c c₁ c₂ : ℚ) :
    DairySight.capacityPercent c ≤ 100 ∧
    (c₁ ≤ c₂ → DairySight.capacityPercent c₁ ≤ DairySight.capacityPercent c₂) ∧
    (0 ≤ c → DairySight.capacityPercent c = DairySight.clampSpec (c / 100 * 100) 0 100) := by
  have key : ∀ x : ℚ, x / 100 * 100 = x := fun x => by ring
  refine ⟨min_le_right _ _, fun h => ?_, fun hc => ?_⟩
  · exact min_le_min (by rw [key, key]; exact h) le_rfl
  · unfold DairySight.capacityPercent DairySight.clampSpec
    rw [key, max_eq_left hc]

/-- Witness for C6 amended, at capacities 1 ≤ 2 and 30. -/
theorem C6_capacity_percent_amended_witness :
    DairySight.capacityPercent 1 ≤ DairySight.capacityPercent 2 ∧
    DairySight.capacityPercent 30 =
      DairySight.clampSpec ((30 : ℚ) / 100 * 100) 0 100 := by
  constructor
  · exact (C6_capacity_percent_amended 0 1 2).2.1 (by norm_num)
  · exact (C6_capacity_percent_amended 30 0 0).2.2 (by norm_num)

/-- C7: the capacity color bands have inclusive boundaries — green iff
the percentage is ≥ 50, yellow iff it is in [25, 50), red iff it is
< 25; in particular 50 is green and 25 is yellow. -/
theorem C7_capacity_color_banding (p : ℚ) :
    (DairySight.capacityBarColor p = "bg-green-500" ↔ 50 ≤ p) ∧
    (DairySight.capacityBarColor p = "bg-yellow-400" ↔ 25 ≤ p ∧ p < 50) ∧
    (DairySight.capacityBarColor p = "bg-red-500" ↔ p < 25) ∧
    DairySight.capacityBarColor 50 = "bg-green-500" ∧
    DairySight.capacityBarColor 25 = "bg-yellow-400" := by
  have hb50 : DairySight.capacityBarColor 50 = "bg-green-500" := by
    norm_num [DairySight.capacityBarColor]
  have hb25 : DairySight.capacityBarColor 25 = "bg-yellow-400" := by
    norm_num [DairySight.capacityBarColor]
  refine ⟨?_, ?_, ?_, hb50, hb25⟩ <;>
  · by_cases h50 : (50 : ℚ) ≤ p
    · have h25 : (25 : ℚ) ≤ p := by linarith
      have hn25 : ¬ p < 25 := by linarith
      have hn50 : ¬ p < 50 := not_lt.2 h50
      simp [DairySight.capacityBarColor, ge_iff_le, h50, h25, hn25, hn50]
    · by_cases h25 : (25 : ℚ) ≤ p
      · have hlt : p < 50 := not_le.1 h50
        have hn25 : ¬ p < 25 := not_lt.2 h25
        simp [DairySight.capacityBarColor, ge_iff_le, h50, h25, hlt, hn25]
      · have hlt : p < 25 := not_le.1 h25
        simp [DairySight.capacityBarColor, ge_iff_le, h50, h25, hlt]
